import Mathlib

/-!
Verification of the Agentic CX Assistant (src/main.py).

The file shallowly embeds the parts of the program the claims are about:
the mock tools (lookup_order, process_refund), the response normalization
and trace extraction inside the chat endpoint, the session store and the
clear_session endpoint, the chat endpoint's exception handler, and the
agent loop driven by the LangChain AgentExecutor (the loop body lives in
the LangChain dependency, not in this repository, and is modelled from
the spec; src/main.py configures it with max_iterations = 5).
-/

/-! ## Python value / dict embedding -/

/-- Values appearing in the tool result dicts of src/main.py: strings and
lists of strings (the items field). -/
inductive PyVal where
  | s (v : String)
  | strList (v : List String)
deriving DecidableEq, Repr

/-- A Python dict with string keys, embedded as an association list built
by the dict literals of src/main.py (keys are distinct by construction). -/
abbrev PyDict := List (String × PyVal)

/-- Key lookup, embedding Python dict subscript / membership on the keys. -/
def PyDict.get (d : PyDict) (k : String) : Option PyVal :=
  (d.find? (fun p => p.1 == k)).map (fun p => p.2)

/-- Embeds the Python test `k in d`. -/
def PyDict.containsKey (d : PyDict) (k : String) : Bool :=
  (PyDict.get d k).isSome

/-- Embeds Python `d.get(k, default)`. -/
def PyDict.getD (d : PyDict) (k : String) (dflt : PyVal) : PyVal :=
  (PyDict.get d k).getD dflt

/-! ## Tools (src/main.py lines 57-106) -/

/-- The dynamic dates fed into the mock order rows: get_random_recent_date()
for order 12345 and the randomized estimated delivery for order 67890.
They are parameters of the embedding because the source draws them from
the clock and a random generator. -/
structure DateEnv where
  recentDate : String
  estimatedDelivery : String
deriving DecidableEq, Repr

/-- Embeds lookup_order (src/main.py lines 57-87): the mock orders dict has
exactly the keys 12345 and 67890; orders.get on a hit returns the row, and
any other id yields the structured error payload. The function is total:
no code path raises. -/
def lookup_order (env : DateEnv) (order_id : String) : PyDict :=
  if order_id = "12345" then
    [("order_id", PyVal.s "12345"),
     ("items", PyVal.strList ["Laptop", "Wireless Mouse"]),
     ("total", PyVal.s "$1,299.99"),
     ("status", PyVal.s "Delivered"),
     ("delivery_date", PyVal.s env.recentDate),
     ("tracking", PyVal.s "TRACK123")]
  else if order_id = "67890" then
    [("order_id", PyVal.s "67890"),
     ("items", PyVal.strList ["Headphones"]),
     ("total", PyVal.s "$299.99"),
     ("status", PyVal.s "In Transit"),
     ("estimated_delivery", PyVal.s env.estimatedDelivery),
     ("tracking", PyVal.s "TRACK456")]
  else
    [("error", PyVal.s ("Order " ++ order_id ++ " not found"))]

/-- Embeds process_refund (src/main.py lines 89-106): it first invokes
lookup_order on the same id, returns an error payload when that result has
an "error" key, and otherwise returns the success payload whose amount is
order.get("total", "$0.00") and whose refund_id is "REF-" + order_id.
Total: no code path raises. -/
def process_refund (env : DateEnv) (order_id : String) (reason : String) : PyDict :=
  let order := lookup_order env order_id
  if PyDict.containsKey order "error" then
    [("error", PyVal.s ("Cannot process refund - order " ++ order_id ++ " not found"))]
  else
    [("status", PyVal.s "success"),
     ("refund_id", PyVal.s ("REF-" ++ order_id)),
     ("amount", PyDict.getD order "total" (PyVal.s "$0.00")),
     ("estimated_days", PyVal.s "3-5 business days"),
     ("reason", PyVal.s reason)]

/-! ## Response normalization (src/main.py lines 222-245) -/

/-- One element of a list-shaped agent output. A dict fragment carries the
value under "text" when that key is present, else the str() form of the
value under "content" when that key is present (a dict with neither key
contributes nothing); otherwise the fragment is a plain string or the
str() form of some other object. -/
inductive Fragment where
  | dict (textVal : Option String) (contentVal : Option String)
  | str (s : String)
  | other (s : String)
deriving DecidableEq, Repr

/-- The text a single fragment contributes to response_text, following the
branch order of src/main.py lines 229-237 ("text" checked before
"content"). -/
def fragmentText : Fragment → String
  | Fragment.dict (some t) _ => t
  | Fragment.dict none (some c) => c
  | Fragment.dict none none => ""
  | Fragment.str s => s
  | Fragment.other s => s

/-- The raw agent output result.get("output", ""): a list of fragments, a
plain string, or some other object carried by its str() form. -/
inductive RawOutput where
  | list (items : List Fragment)
  | str (s : String)
  | other (s : String)
deriving DecidableEq, Repr

/-- Embeds the response_text accumulation of src/main.py lines 225-241:
a list output is concatenated fragment by fragment starting from "",
a plain string is used as-is, anything else contributes its str() form. -/
def extractText : RawOutput → String
  | RawOutput.list items => items.foldl (fun acc it => acc ++ fragmentText it) ""
  | RawOutput.str s => s
  | RawOutput.other s => s

/-- The fixed fallback message of src/main.py line 245. -/
def FALLBACK : String :=
  "I processed your request but encountered an issue formatting the response. Please try again."

/-- ASCII whitespace in the sense of Python str.isspace, restricted to the
ASCII range. -/
def isSpaceChar (c : Char) : Bool :=
  c == ' ' || c == '\t' || c == '\n' || c == '\r' || c == '\x0b' || c == '\x0c'

/-- Python str.strip() modelled over the string's character list: removes
leading and trailing whitespace characters. -/
def pyStrip (s : String) : String :=
  String.mk (((s.data.dropWhile isSpaceChar).reverse.dropWhile isSpaceChar).reverse)

/-- Embeds src/main.py lines 243-245: if not response_text or
response_text.strip() == "", substitute the fallback. -/
def normalizeResponse (raw : RawOutput) : String :=
  let t := extractText raw
  if t = "" ∨ pyStrip t = "" then FALLBACK else t

/-! ## Trace extraction (src/main.py lines 247-260) -/

/-- One entry of result["intermediate_steps"]: the action's tool name, the
str() form of action.tool_input, and the str() form of the step's raw
output. -/
structure IntermediateStep where
  tool : String
  input : String
  output : String
deriving DecidableEq, Repr

/-- One element of the agent_steps list returned by the chat endpoint. -/
structure TraceRecord where
  tool : String
  input : String
  output : String
deriving DecidableEq, Repr

/-- The record built for one intermediate step (src/main.py lines 254-258):
tool name, str(action.tool_input), str(output) - the output string is used
in full, no truncation is applied. -/
def mkRecord (s : IntermediateStep) : TraceRecord :=
  ⟨s.tool, s.input, s.output⟩

/-- One iteration of the for loop of src/main.py lines 252-260: append the
step's record to agent_steps, and append the tool name to tools_used only
when it is not already present. -/
def traceStep (acc : List TraceRecord × List String) (step : IntermediateStep) :
    List TraceRecord × List String :=
  (acc.1 ++ [mkRecord step],
   if step.tool ∈ acc.2 then acc.2 else acc.2 ++ [step.tool])

/-- Embeds the whole for loop of src/main.py lines 252-260, folding
traceStep over the intermediate steps starting from two empty lists. -/
def buildTrace (steps : List IntermediateStep) : List TraceRecord × List String :=
  steps.foldl traceStep ([], [])

/-! ## Session store (src/main.py lines 33, 199-205, 274-279) -/

/-- One conversation turn held in a session's memory. -/
structure Turn where
  role : String
  content : String
deriving DecidableEq, Repr

/-- A session's ordered conversation history. -/
abbrev History := List Turn

/-- The module-level sessions dict, embedded as a finite map from session
identifier to history (Python dict semantics: at most one entry per key). -/
abbrev SessionStore := String → Option History

/-- The empty sessions dict. -/
def SessionStore.empty : SessionStore := fun _ => none

/-- Embeds sessions[id] = h. -/
def SessionStore.set (st : SessionStore) (id : String) (h : History) : SessionStore :=
  fun k => if k = id then some h else st k

/-- Embeds del sessions[id]. -/
def SessionStore.erase (st : SessionStore) (id : String) : SessionStore :=
  fun k => if k = id then none else st k

/-- Embeds src/main.py lines 199-205: if the id is absent a fresh empty
memory is stored, then memory = sessions[id] is returned together with the
updated store. -/
def get_or_create (st : SessionStore) (id : String) : History × SessionStore :=
  match st id with
  | some h => (h, st)
  | none => ([], SessionStore.set st id [])

/-- Modelled from the spec: the ConversationBufferMemory update performed by
the LangChain AgentExecutor after one exchange is not part of this
repository sources; per spec sections 3 and 8 the exchange appends the user
turn and the assistant's final turn to the session history. -/
def recordExchange (h : History) (userMsg : String) (assistantMsg : String) : History :=
  h ++ [⟨"user", userMsg⟩, ⟨"assistant", assistantMsg⟩]

/-- One chat exchange's effect on the session store: get-or-create the
session memory (src/main.py lines 199-205), then the executor appends the
user and assistant turns to it in place (modelled from the spec, see
recordExchange). -/
def chatExchange (st : SessionStore) (id : String) (userMsg : String)
    (assistantMsg : String) : History × SessionStore :=
  let p := get_or_create st id
  let h := recordExchange p.1 userMsg assistantMsg
  (h, SessionStore.set p.2 id h)

/-- The body of the DELETE /session endpoint. -/
structure ClearResponse where
  status : String
  session_id : String
deriving DecidableEq, Repr

/-- Embeds clear_session (src/main.py lines 274-279): delete the entry and
answer "cleared" when the id is present, answer "not_found" otherwise.
Total: no code path raises. -/
def clear_session (st : SessionStore) (id : String) : ClearResponse × SessionStore :=
  if (st id).isSome then (⟨"cleared", id⟩, SessionStore.erase st id)
  else (⟨"not_found", id⟩, st)

/-! ## Chat endpoint failure path (src/main.py lines 268-272) -/

/-- The HTTPException surfaced by the chat endpoint's except clause. -/
structure HTTPError where
  status_code : Nat
  detail : String
deriving DecidableEq, Repr

/-- Embeds src/main.py line 272: raise HTTPException(status_code=500,
detail=str(e)) - the detail is exactly the exception's string form (the
stack trace is only printed to the server log, lines 269-271). -/
def chatErrorDetail (excMessage : String) : HTTPError :=
  ⟨500, excMessage⟩

/-! ## Agent loop (LangChain AgentExecutor, configured in src/main.py
lines 208-216 with max_iterations = 5 and handle_parsing_errors = True) -/

/-- The iteration bound passed to the AgentExecutor (src/main.py line 214). -/
def MAX_ITERATIONS : Nat := 5

/-- One tool invocation requested by the reasoning service. -/
structure ToolCallReq where
  tool : String
  args : String
deriving DecidableEq, Repr

/-- The reasoning service's decision at one THINKING step: a final answer,
one or more requested tool calls, or malformed output (handled as a
recoverable parse error that consumes an iteration, per
handle_parsing_errors = True). -/
inductive Decision where
  | finalAnswer (text : String)
  | toolCalls (calls : List ToolCallReq)
  | malformed (raw : String)
deriving DecidableEq, Repr

/-- The agent loop states of spec section 4.3. -/
inductive LoopState where
  | THINKING
  | ACTING
  | DONE
  | ABORTED
deriving DecidableEq, Repr

/-- The terminal outcome of one run of the agent loop: final state, final
text, and the number of THINKING-ACTING cycles consumed. -/
structure LoopResult where
  state : LoopState
  text : String
  cycles : Nat
deriving DecidableEq, Repr

/-- The generic best-effort text returned when the loop aborts at the
iteration bound (the AgentExecutor's forced early-stopping answer). -/
def ABORT_TEXT : String :=
  "Agent stopped due to iteration limit or time limit."

/-- Modelled from the spec: the driving loop of spec section 4.3 lives in
the LangChain AgentExecutor dependency, which is not under src/;
src/main.py only configures it. Each step consults the reasoning service
decision for the current cycle index: a final answer ends the loop in
DONE; requested tool calls are executed and the loop continues, consuming
one cycle; malformed output is fed back and also consumes one cycle.
When the fuel (the iteration bound) is exhausted the loop ends in ABORTED
with the generic best-effort text instead of looping or raising. -/
def runAgentLoop (d : Nat → Decision) : Nat → Nat → LoopResult
  | 0, step => ⟨LoopState.ABORTED, ABORT_TEXT, step⟩
  | fuel + 1, step =>
    match d step with
    | Decision.finalAnswer t => ⟨LoopState.DONE, t, step⟩
    | Decision.toolCalls _ => runAgentLoop d fuel (step + 1)
    | Decision.malformed _ => runAgentLoop d fuel (step + 1)

/-- The loop as configured by the chat endpoint: bound MAX_ITERATIONS,
starting at cycle 0. -/
def agentLoop (d : Nat → Decision) : LoopResult :=
  runAgentLoop d MAX_ITERATIONS 0

/-! ## Concrete inputs used by the witnesses -/

/-- A concrete date environment for evaluating the tools. -/
def dateEnv0 : DateEnv :=
  ⟨"2025-10-05", "2025-10-14"⟩

/-- A concrete session store holding one session. -/
def store1 : SessionStore :=
  SessionStore.set SessionStore.empty "alice" [⟨"user", "hi"⟩]

/-! ## Helper lemmas -/

theorem containsKey_error_singleton (v : PyVal) :
    PyDict.containsKey [("error", v)] "error" = true := rfl

theorem lookup_order_unknown (env : DateEnv) (oid : String)
    (h1 : oid ≠ "12345") (h2 : oid ≠ "67890") :
    lookup_order env oid = [("error", PyVal.s ("Order " ++ oid ++ " not found"))] := by
  simp [lookup_order, h1, h2]

theorem process_refund_unknown (env : DateEnv) (oid : String) (reason : String)
    (h1 : oid ≠ "12345") (h2 : oid ≠ "67890") :
    process_refund env oid reason =
      [("error", PyVal.s ("Cannot process refund - order " ++ oid ++ " not found"))] := by
  unfold process_refund
  rw [lookup_order_unknown env oid h1 h2]
  rfl

/-! ## Claim theorems -/

/-- C2: for every raw agent output whose extracted text is empty or
whitespace-only, the normalizer substitutes the fixed fallback message, and
the normalized response is never the empty string. -/
theorem chat_response_nonempty (raw : RawOutput) :
    (pyStrip (extractText raw) = "" → normalizeResponse raw = FALLBACK) ∧
    normalizeResponse raw ≠ "" := by
  constructor
  · intro h
    show (if extractText raw = "" ∨ pyStrip (extractText raw) = ""
          then FALLBACK else extractText raw) = FALLBACK
    rw [if_pos (Or.inr h)]
  · show (if extractText raw = "" ∨ pyStrip (extractText raw) = ""
          then FALLBACK else extractText raw) ≠ ""
    split
    · decide
    · rename_i hcond
      push_neg at hcond
      exact hcond.1

/-- Witness for C2 at the concrete whitespace-only raw output "   ". -/
theorem chat_response_nonempty_witness :
    normalizeResponse (RawOutput.str "   ") = FALLBACK ∧
    normalizeResponse (RawOutput.str "   ") ≠ "" :=
  ⟨(chat_response_nonempty (RawOutput.str "   ")).1 (by decide),
   (chat_response_nonempty (RawOutput.str "   ")).2⟩

/-- C6: a raw output that is already a plain string normalizes to itself,
except when it is empty or whitespace-only, in which case the fixed
fallback is produced. -/
theorem normalize_plain_string_id (s : String) :
    (pyStrip s ≠ "" → normalizeResponse (RawOutput.str s) = s) ∧
    (pyStrip s = "" → normalizeResponse (RawOutput.str s) = FALLBACK) := by
  constructor
  · intro h
    have hs : s ≠ "" := by
      intro he
      exact h (by rw [he]; rfl)
    have hcond : ¬ (s = "" ∨ pyStrip s = "") := by
      push_neg
      exact ⟨hs, h⟩
    show (if s = "" ∨ pyStrip s = "" then FALLBACK else s) = s
    rw [if_neg hcond]
  · intro h
    show (if s = "" ∨ pyStrip s = "" then FALLBACK else s) = FALLBACK
    rw [if_pos (Or.inr h)]

/-- Witness for C6 at the concrete plain string "hello". -/
theorem normalize_plain_string_id_witness :
    normalizeResponse (RawOutput.str "hello") = "hello" :=
  (normalize_plain_string_id "hello").1 (by decide)

/-- C3: for every order id outside the registered mock orders, lookup_order
and process_refund both return a payload containing the "error" key (both
functions are total in the embedding: the source raises on no path). -/
theorem unknown_order_structured_error (env : DateEnv) (oid : String) (reason : String)
    (h1 : oid ≠ "12345") (h2 : oid ≠ "67890") :
    PyDict.containsKey (lookup_order env oid) "error" = true ∧
    PyDict.containsKey (process_refund env oid reason) "error" = true := by
  constructor
  · rw [lookup_order_unknown env oid h1 h2]
    exact containsKey_error_singleton _
  · rw [process_refund_unknown env oid reason h1 h2]
    exact containsKey_error_singleton _

/-- Witness for C3 at the concrete unknown order id "99999". -/
theorem unknown_order_structured_error_witness :
    PyDict.containsKey (lookup_order dateEnv0 "99999") "error" = true ∧
    PyDict.containsKey (process_refund dateEnv0 "99999" "damaged") "error" = true :=
  unknown_order_structured_error dateEnv0 "99999" "damaged" (by decide) (by decide)

/-- C10: process_refund succeeds exactly when lookup_order on the same id
returns no error; on success the amount is the order's total and the
refund_id is "REF-" followed by the order id; on failure it returns an
error payload and no success status. -/
theorem refund_iff_order_found (env : DateEnv) (oid : String) (reason : String) :
    (PyDict.containsKey (process_refund env oid reason) "error" = false ↔
      PyDict.containsKey (lookup_order env oid) "error" = false) ∧
    (PyDict.containsKey (lookup_order env oid) "error" = false →
      PyDict.get (process_refund env oid reason) "status" = some (PyVal.s "success") ∧
      PyDict.get (process_refund env oid reason) "amount" =
        PyDict.get (lookup_order env oid) "total" ∧
      PyDict.get (process_refund env oid reason) "refund_id" =
        some (PyVal.s ("REF-" ++ oid))) ∧
    (PyDict.containsKey (lookup_order env oid) "error" = true →
      PyDict.containsKey (process_refund env oid reason) "error" = true ∧
      PyDict.get (process_refund env oid reason) "status" = none) := by
  by_cases h1 : oid = "12345"
  · subst h1
    refine ⟨⟨fun _ => rfl, fun _ => rfl⟩, fun _ => ⟨rfl, rfl, rfl⟩, fun h => nomatch h⟩
  · by_cases h2 : oid = "67890"
    · subst h2
      refine ⟨⟨fun _ => rfl, fun _ => rfl⟩, fun _ => ⟨rfl, rfl, rfl⟩, fun h => nomatch h⟩
    · rw [process_refund_unknown env oid reason h1 h2, lookup_order_unknown env oid h1 h2]
      refine ⟨⟨(fun h => nomatch h), (fun h => nomatch h)⟩, (fun h => nomatch h),
        (fun _ => ⟨rfl, rfl⟩)⟩

/-- Witness for C10 at the concrete known order "12345". -/
theorem refund_iff_order_found_witness :
    PyDict.get (process_refund dateEnv0 "12345" "damaged") "status" =
      some (PyVal.s "success") ∧
    PyDict.get (process_refund dateEnv0 "12345" "damaged") "amount" =
      some (PyVal.s "$1,299.99") ∧
    PyDict.get (process_refund dateEnv0 "12345" "damaged") "refund_id" =
      some (PyVal.s "REF-12345") := by
  have h := (refund_iff_order_found dateEnv0 "12345" "damaged").2.1 (by decide)
  exact ⟨h.1, h.2.1.trans (by decide), h.2.2.trans (by decide)⟩

/-! ## Session store lemmas and claims C4, C5 -/

theorem sessionStore_set_get (st : SessionStore) (id : String) (h : History) :
    SessionStore.set st id h id = some h := by
  unfold SessionStore.set
  rw [if_pos rfl]

theorem get_or_create_after_set (st : SessionStore) (id : String) (h : History) :
    get_or_create (SessionStore.set st id h) id = (h, SessionStore.set st id h) := by
  unfold get_or_create
  rw [sessionStore_set_get]

/-- C4: get_or_create is idempotent per session id (a second access returns
the same history and leaves the store unchanged), and after one chat
exchange for session id the history seen by the next access contains that
exchange's user message and assistant response. -/
theorem session_memory_persists (st : SessionStore) (id m1 a1 : String) :
    get_or_create (get_or_create st id).2 id = get_or_create st id ∧
    Turn.mk "user" m1 ∈ (get_or_create (chatExchange st id m1 a1).2 id).1 ∧
    Turn.mk "assistant" a1 ∈ (get_or_create (chatExchange st id m1 a1).2 id).1 := by
  have hx : (get_or_create (chatExchange st id m1 a1).2 id).1
      = (get_or_create st id).1 ++ [Turn.mk "user" m1, Turn.mk "assistant" a1] := by
    have h2 : (chatExchange st id m1 a1).2
        = SessionStore.set (get_or_create st id).2 id
            (recordExchange (get_or_create st id).1 m1 a1) := rfl
    rw [h2, get_or_create_after_set]
    rfl
  refine ⟨?_, ?_, ?_⟩
  · cases hst : st id with
    | some h => simp [get_or_create, hst]
    | none => simp [get_or_create, hst, sessionStore_set_get]
  · rw [hx]
    simp
  · rw [hx]
    simp

/-- C5: clearing an existing session answers "cleared" and removes the
session so a following access starts from the empty history; clearing an
absent session answers "not_found" and leaves the store unchanged. The
embedded operation is total: the source raises on no path. -/
theorem clear_session_spec (st : SessionStore) (id : String) :
    ((st id).isSome = true →
      (clear_session st id).1.status = "cleared" ∧
      (clear_session st id).1.session_id = id ∧
      (clear_session st id).2 id = none ∧
      (get_or_create (clear_session st id).2 id).1 = []) ∧
    (st id = none →
      (clear_session st id).1.status = "not_found" ∧
      (clear_session st id).1.session_id = id ∧
      (clear_session st id).2 = st) := by
  constructor
  · intro h
    have her : SessionStore.erase st id id = none := by
      unfold SessionStore.erase
      rw [if_pos rfl]
    have hcl : clear_session st id = (⟨"cleared", id⟩, SessionStore.erase st id) := by
      unfold clear_session
      rw [if_pos h]
    rw [hcl]
    refine ⟨rfl, rfl, her, ?_⟩
    show (get_or_create (SessionStore.erase st id) id).1 = []
    unfold get_or_create
    rw [her]
  · intro h
    have hns : ¬ ((st id).isSome = true) := by
      rw [h]
      simp
    have hcl : clear_session st id = (⟨"not_found", id⟩, st) := by
      unfold clear_session
      rw [if_neg hns]
    rw [hcl]
    exact ⟨rfl, rfl, rfl⟩

/-- Witness for C5 at a concrete store holding only session "alice". -/
theorem clear_session_spec_witness :
    (clear_session store1 "alice").1.status = "cleared" ∧
    (get_or_create (clear_session store1 "alice").2 "alice").1 = [] ∧
    (clear_session store1 "bob").1.status = "not_found" :=
  ⟨((clear_session_spec store1 "alice").1 rfl).1,
   ((clear_session_spec store1 "alice").1 rfl).2.2.2,
   ((clear_session_spec store1 "bob").2 rfl).1⟩

/-! ## Trace lemmas and claims C7, C8 -/

theorem buildTrace_fold_fst (steps : List IntermediateStep) :
    ∀ acc : List TraceRecord × List String,
      (steps.foldl traceStep acc).1 = acc.1 ++ steps.map mkRecord := by
  induction steps with
  | nil =>
    intro acc
    simp
  | cons s rest ih =>
    intro acc
    rw [List.foldl_cons, List.map_cons, ih (traceStep acc s)]
    show (acc.1 ++ [mkRecord s]) ++ rest.map mkRecord
        = acc.1 ++ mkRecord s :: rest.map mkRecord
    simp

theorem buildTrace_fst (steps : List IntermediateStep) :
    (buildTrace steps).1 = steps.map mkRecord := by
  have h := buildTrace_fold_fst steps ([], [])
  simpa [buildTrace] using h

theorem trace_tools_aux (steps : List IntermediateStep) :
    ∀ acc : List TraceRecord × List String, acc.2.Nodup →
      (steps.foldl traceStep acc).2.Nodup ∧
      (∀ n, n ∈ (steps.foldl traceStep acc).2 ↔
        n ∈ acc.2 ∨ n ∈ steps.map (fun s => s.tool)) := by
  induction steps with
  | nil =>
    intro acc hacc
    simp [hacc]
  | cons s rest ih =>
    intro acc hacc
    have hts : (traceStep acc s).2
        = if s.tool ∈ acc.2 then acc.2 else acc.2 ++ [s.tool] := rfl
    have hnd : (traceStep acc s).2.Nodup := by
      rw [hts]
      split
      · exact hacc
      · rename_i hmem
        refine List.Nodup.append hacc (List.nodup_singleton _) ?_
        intro a ha hb
        rw [List.mem_singleton] at hb
        subst hb
        exact hmem ha
    have hmem2 : ∀ n, n ∈ (traceStep acc s).2 ↔ n ∈ acc.2 ∨ n = s.tool := by
      intro n
      rw [hts]
      split
      · rename_i hmem
        constructor
        · exact fun hn => Or.inl hn
        · intro hn
          rcases hn with hn | hn
          · exact hn
          · rw [hn]
            exact hmem
      · simp
    have hrec := ih (traceStep acc s) hnd
    refine ⟨hrec.1, ?_⟩
    intro n
    rw [List.foldl_cons, hrec.2 n, hmem2 n]
    simp only [List.map_cons, List.mem_cons]
    tauto

/-- C7: the agent_steps list built from the intermediate steps has exactly
one record per tool call, in execution order, and tools_used lists each
distinct tool name appearing in the steps exactly once (no duplicates). -/
theorem trace_records_spec (steps : List IntermediateStep) :
    (buildTrace steps).1 = steps.map mkRecord ∧
    (buildTrace steps).2.Nodup ∧
    (∀ n, n ∈ (buildTrace steps).2 ↔ n ∈ steps.map (fun s => s.tool)) := by
  have h2 := trace_tools_aux steps ([], []) List.nodup_nil
  refine ⟨buildTrace_fst steps, h2.1, ?_⟩
  intro n
  have h := h2.2 n
  simpa [buildTrace] using h

/-- C8 counterexample: no finite cap bounds the output field of the trace
records, because the record stores str(output) in full; any candidate cap
N is exceeded by the concrete single-step trace whose tool output is a
string of N + 1 characters. -/
theorem trace_output_uncapped :
    ¬ ∃ N : Nat, ∀ steps : List IntermediateStep, ∀ r ∈ (buildTrace steps).1,
        r.output.length ≤ N := by
  rintro ⟨N, hN⟩
  have hmem : (⟨"lookup_order", "args", String.mk (List.replicate (N + 1) 'a')⟩ : TraceRecord)
      ∈ (buildTrace [⟨"lookup_order", "args", String.mk (List.replicate (N + 1) 'a')⟩]).1 := by
    simp [buildTrace, traceStep, mkRecord]
  have hle := hN _ _ hmem
  have hlen : (String.mk (List.replicate (N + 1) 'a')).length = N + 1 := by
    simp [String.length]
  rw [hlen] at hle
  omega

/-- C8 (amended): every trace record's output field is the full string form
of that step's tool output; no truncation is applied. -/
theorem trace_output_full (steps : List IntermediateStep) :
    ((buildTrace steps).1).map (fun r => r.output) = steps.map (fun s => s.output) := by
  rw [buildTrace_fst steps]
  simp [mkRecord]

/-! ## Claim C9 (chat endpoint failure detail) -/

/-- C9 counterexample: at the concrete exception message "division by
zero" the HTTP 500 detail surfaced by the chat endpoint equals that raw
exception string, refuting the claim that the detail is never the raw
exception string. -/
theorem error_detail_raw_counterexample :
    ¬ (∀ e : String, (chatErrorDetail e).detail ≠ e) := by
  intro h
  exact h "division by zero" rfl

/-- C9 (amended): an unrecoverable failure in the chat endpoint surfaces
as HTTP 500 whose detail is exactly the raw exception string str(e) (the
stack trace itself is only printed to the server log). -/
theorem error_detail_is_raw_string (e : String) :
    (chatErrorDetail e).status_code = 500 ∧ (chatErrorDetail e).detail = e :=
  ⟨rfl, rfl⟩

/-! ## Agent loop lemmas and claim C1 -/

theorem runAgentLoop_bound (d : Nat → Decision) :
    ∀ fuel step : Nat,
      (runAgentLoop d fuel step).cycles ≤ step + fuel ∧
      ((runAgentLoop d fuel step).state = LoopState.DONE ∨
        (runAgentLoop d fuel step).state = LoopState.ABORTED) := by
  intro fuel
  induction fuel with
  | zero =>
    intro step
    exact ⟨Nat.le_refl step, Or.inr rfl⟩
  | succ fuel ih =>
    intro step
    cases hd : d step with
    | finalAnswer t =>
      have hr : runAgentLoop d (fuel + 1) step = ⟨LoopState.DONE, t, step⟩ := by
        simp only [runAgentLoop]
        rw [hd]
      rw [hr]
      refine ⟨?_, Or.inl rfl⟩
      show step ≤ step + (fuel + 1)
      omega
    | toolCalls cs =>
      have hr : runAgentLoop d (fuel + 1) step = runAgentLoop d fuel (step + 1) := by
        simp only [runAgentLoop]
        rw [hd]
      rw [hr]
      have h := ih (step + 1)
      refine ⟨?_, h.2⟩
      have h1 := h.1
      omega
    | malformed r =>
      have hr : runAgentLoop d (fuel + 1) step = runAgentLoop d fuel (step + 1) := by
        simp only [runAgentLoop]
        rw [hd]
      rw [hr]
      have h := ih (step + 1)
      refine ⟨?_, h.2⟩
      have h1 := h.1
      omega

theorem runAgentLoop_allToolCalls (d : Nat → Decision)
    (h : ∀ n, ∃ cs, d n = Decision.toolCalls cs) :
    ∀ fuel step : Nat,
      runAgentLoop d fuel step = ⟨LoopState.ABORTED, ABORT_TEXT, step + fuel⟩ := by
  intro fuel
  induction fuel with
  | zero =>
    intro step
    rfl
  | succ fuel ih =>
    intro step
    obtain ⟨cs, hcs⟩ := h step
    have hr : runAgentLoop d (fuel + 1) step = runAgentLoop d fuel (step + 1) := by
      simp only [runAgentLoop]
      rw [hcs]
    rw [hr, ih (step + 1)]
    have harith : step + 1 + fuel = step + (fuel + 1) := by omega
    rw [harith]

/-- C1: for every sequence of decisions by the reasoning service the agent
loop finishes within the fixed bound of MAX_ITERATIONS cycles, ending in
DONE or ABORTED; in particular when the service requests a tool call at
every step the loop ends ABORTED with the generic best-effort text after
exactly MAX_ITERATIONS cycles, never looping forever or raising. -/
theorem agent_loop_terminates (d : Nat → Decision) :
    (agentLoop d).cycles ≤ MAX_ITERATIONS ∧
    ((agentLoop d).state = LoopState.DONE ∨ (agentLoop d).state = LoopState.ABORTED) ∧
    ((∀ n, ∃ cs, d n = Decision.toolCalls cs) →
      agentLoop d = ⟨LoopState.ABORTED, ABORT_TEXT, MAX_ITERATIONS⟩) := by
  have h := runAgentLoop_bound d MAX_ITERATIONS 0
  refine ⟨by simpa [agentLoop] using h.1, h.2, ?_⟩
  intro hall
  have hres := runAgentLoop_allToolCalls d hall MAX_ITERATIONS 0
  simpa [agentLoop] using hres

/-- Witness for C1 at the concrete decision sequence that always requests
the same tool call. -/
theorem agent_loop_terminates_witness :
    agentLoop (fun _ => Decision.toolCalls [⟨"lookup_order", "12345"⟩]) =
      ⟨LoopState.ABORTED, ABORT_TEXT, MAX_ITERATIONS⟩ :=
  (agent_loop_terminates (fun _ => Decision.toolCalls [⟨"lookup_order", "12345"⟩])).2.2
    (fun _ => ⟨[⟨"lookup_order", "12345"⟩], rfl⟩)
